import Mathlib

/-!
Verification development for the treinos_corridas running-log application
(src/treinos.py, src/treinos_menu.py, src/app_treinos.py).

The embedding models the normalization pipeline, the duration/pace
parsing and formatting helpers, the date-derived labels, and the
summary aggregation, translated from the Python source:

* Calendar dates are triples (year, month, day) in the proleptic
  Gregorian calendar; `pyWeekday` matches Python's `date.weekday()`
  (Monday = 0) and `isoYear`/`isoWeek` match `date.isocalendar()`.
* pandas `Timedelta` values are modelled by their total seconds as an
  integer (`Int`); the Python floor-division `//` and modulo `%` used by
  the formatting f-strings agree with Lean's `Int` `/` (Euclidean) and
  `%` for the positive divisors used here, since both round the
  remainder into `[0, divisor)`.
* Cells of the time columns are modelled by `TVal`: a null cell, a
  `datetime.time` value, a rendered time text, or unparseable junk.
  Rendered texts are modelled structurally by `TimeText`: the empty
  string, a two-field string `f"{m:02d}:{s:02d}"`, or a three-field
  string `f"{h:02d}:{m:02d}:{s:02d}"`; the rendering of a `TimeText`
  into a string is injective, and `to_timedelta` on a `TimeText` mirrors
  what `pd.to_timedelta` does on the rendered string (a two-field
  string "a:b" is read as a hours and b minutes, a leading minus sign
  negates the whole value).
* A date cell that `pd.to_datetime(..., errors="coerce")` cannot parse
  is `none` (NaT), and a distance cell that `pd.to_numeric(...,
  errors="coerce")` cannot parse is `none` (NaN); distances are
  modelled as rationals.
-/

/-! ### Calendar: proleptic Gregorian dates, Python weekday, ISO week -/

/-- A calendar date (proleptic Gregorian), as held by a pandas `Timestamp`. -/
structure Date where
  year : Nat
  month : Nat
  day : Nat
deriving DecidableEq, Repr

/-- Gregorian leap-year rule. -/
def isLeap (y : Nat) : Bool :=
  (y % 4 == 0 && y % 100 != 0) || y % 400 == 0

/-- Days in each month (1-based month number). -/
def daysInMonth (y m : Nat) : Nat :=
  if m == 2 then (if isLeap y then 29 else 28)
  else if m == 4 || m == 6 || m == 9 || m == 11 then 30
  else 31

/-- Day of the year (1-based ordinal) of a date. -/
def dayOfYear (d : Date) : Nat :=
  (List.range (d.month - 1)).foldl (fun acc i => acc + daysInMonth d.year (i + 1)) 0 + d.day

/-- Rata Die day number: day 1 is 0001-01-01 (a Monday). -/
def rataDie (d : Date) : Nat :=
  365 * (d.year - 1) + (d.year - 1) / 4 - (d.year - 1) / 100 + (d.year - 1) / 400
    + dayOfYear d

/-- Python `date.weekday()`: Monday = 0 .. Sunday = 6. -/
def pyWeekday (d : Date) : Nat :=
  (rataDie d - 1) % 7

/-- Number of ISO weeks (52 or 53) in a year, via the standard
`p(y) = (y + y/4 - y/100 + y/400) mod 7` criterion. -/
def isoWeeksInYear (y : Nat) : Nat :=
  let p : Nat → Nat := fun x => (x + x / 4 - x / 100 + x / 400) % 7
  if p y == 4 || p (y - 1) == 3 then 53 else 52

/-- ISO week-numbering (year, week) pair of a date, as returned by
Python's `date.isocalendar()`: `w = (ordinal - isoWeekday + 10) / 7`
(written without subtraction underflow since `ordinal ≥ 1` and the ISO
weekday is at most 7). -/
def isoPair (d : Date) : Nat × Nat :=
  let w := (dayOfYear d + 9 - pyWeekday d) / 7
  if w == 0 then (d.year - 1, isoWeeksInYear (d.year - 1))
  else if w == 53 && isoWeeksInYear d.year == 52 then (d.year + 1, 1)
  else (d.year, w)

/-- ISO week-numbering year of a date (`isocalendar().year`). -/
def isoYear (d : Date) : Nat := (isoPair d).1

/-- ISO week number of a date (`isocalendar().week`). -/
def isoWeek (d : Date) : Nat := (isoPair d).2

/-! ### Rendering helpers -/

/-- Zero-pad a natural number to (at least) two digits, as `f"{n:02d}"`
and as `.astype(str).str.zfill(2)` render a natural number. -/
def pad2 (n : Nat) : String :=
  if n < 10 then "0" ++ toString n else toString n

/-- Month names used by `MESES_PT` in src/treinos.py, already capitalized
as `mes_ano_label` capitalizes them. -/
def MESES_PT : List String :=
  ["Janeiro", "Fevereiro", "Março", "Abril", "Maio", "Junho", "Julho",
   "Agosto", "Setembro", "Outubro", "Novembro", "Dezembro"]

/-- Weekday names `DIAS_PT` in src/treinos.py (Monday first). -/
def DIAS_PT : List String :=
  ["Segunda", "Terça", "Quarta", "Quinta", "Sexta", "Sábado", "Domingo"]

/-- `mes_ano_label` from src/treinos.py: capitalized month name and year. -/
def mes_ano_label (d : Date) : String :=
  MESES_PT.getD (d.month - 1) "" ++ " " ++ toString d.year

/-- `dia_semana_nome` from src/treinos.py: weekday name via `DIAS_PT`. -/
def dia_semana_nome (d : Date) : String :=
  DIAS_PT.getD (pyWeekday d) ""

/-- `semana_iso_label` from src/treinos.py:
`f"{int(iso.year)}-W{int(iso.week):02d}"`. -/
def semana_iso_label (d : Date) : String :=
  toString (isoYear d) ++ "-W" ++ pad2 (isoWeek d)

/-! ### Time values and the duration parser -/

/-- A rendered time text, represented by its numeric fields.
`empty` is the empty string, `mmss m s` is `f"{m:02d}:{s:02d}"`, and
`hhmmss h m s` is `f"{h:02d}:{m:02d}:{s:02d}"`; the code only ever
renders `m`/`s` fields in `[0, 60)` and a possibly unbounded (or, for a
negative span, negative) leading field. -/
inductive TimeText where
  | empty
  | mmss (m s : Int)
  | hhmmss (h m s : Int)
deriving DecidableEq, Repr

/-- A cell value fed to `to_timedelta`: a null cell, a `datetime.time`
value, a rendered time text, or text that `pd.to_timedelta` rejects. -/
inductive TVal where
  | null
  | timeOfDay (h m s : Nat)
  | text (t : TimeText)
  | junk
deriving DecidableEq, Repr

/-- `to_timedelta` from src/treinos.py (identical to `to_timedelta_safe`
in src/app_treinos.py on the shapes both accept), returning the total
seconds of the resulting Timedelta.  Null and empty cells and
unparseable text give zero; a `datetime.time` gives its seconds since
midnight; a rendered "a:b" text is read by `pd.to_timedelta` as a hours
and b minutes, an "a:b:c" text as hours, minutes, seconds, and a
leading minus sign on the first field negates the whole value. -/
def to_timedelta (v : TVal) : Int :=
  match v with
  | .null => 0
  | .timeOfDay h m s => h * 3600 + m * 60 + s
  | .text .empty => 0
  | .text (.mmss m s) =>
      if m < 0 then -(3600 * (-m) + 60 * s) else 3600 * m + 60 * s
  | .text (.hhmmss h m s) =>
      if h < 0 then -(3600 * (-h) + 60 * m + s) else 3600 * h + 60 * m + s
  | .junk => 0

/-- The Tempo formatter in `normalize_and_fill` (src/treinos.py line 65):
`f"{int(ts//3600):02d}:{int((ts%3600)//60):02d}:{int(ts%60):02d}"`.
Lean's `Int` division and modulo by the positive constants 3600 and 60
agree with Python's `//` and `%` here. -/
def fmtTempo (ts : Int) : TimeText :=
  .hhmmss (ts / 3600) (ts % 3600 / 60) (ts % 60)

/-- The Pace re-formatter in `normalize_and_fill` (src/treinos.py line 67):
the empty string when the parsed pace is zero, otherwise
`f"{int((ts//60)%60):02d}:{int(ts%60):02d}"`. -/
def fmtPaceRefill (ts : Int) : TimeText :=
  if ts = 0 then .empty else .mmss (ts / 60 % 60) (ts % 60)

/-- Python `int(x / q)` for an integer `x` and a positive rational `q`:
truncation toward zero of the exact quotient, computed as the
truncating integer division `(x * q.den).tdiv q.num` (`Rat.num` and
`Rat.den` are the reduced numerator and positive denominator). -/
def pyTruncDiv (x : Int) (q : ℚ) : Int :=
  Int.tdiv (x * q.den) q.num

/-- Floor of `x / q` for an integer `x` and a positive rational `q`
(Lean's Euclidean `Int` division by the positive `q.num` rounds the
remainder into `[0, q.num)`, i.e. floors). -/
def floorDivQ (x : Int) (q : ℚ) : Int :=
  (x * q.den) / q.num

/-- Rational addition, written through `mkRat` so that it evaluates by
kernel reduction; `qAdd_eq_add` below proves it is the addition of `ℚ`. -/
def qAdd (a b : ℚ) : ℚ :=
  mkRat (a.num * b.den + b.num * a.den) (a.den * b.den)

theorem qAdd_eq_add (a b : ℚ) : qAdd a b = a + b := by
  have ha : ((a.den : ℚ)) ≠ 0 := Nat.cast_ne_zero.mpr a.den_nz
  have hb : ((b.den : ℚ)) ≠ 0 := Nat.cast_ne_zero.mpr b.den_nz
  unfold qAdd
  rw [Rat.mkRat_eq_div]
  push_cast
  conv_rhs => rw [← Rat.num_div_den a, ← Rat.num_div_den b]
  field_simp

/-- Sum of a list of rationals (pandas column `sum`), via `qAdd`;
`qSum_eq_sum` proves it is `List.sum`. -/
def qSum (l : List ℚ) : ℚ :=
  l.foldr qAdd 0

theorem qSum_eq_sum (l : List ℚ) : qSum l = l.sum := by
  induction l with
  | nil => rfl
  | cons a l ih => rw [qSum, List.foldr_cons, qAdd_eq_add, List.sum_cons, ← qSum, ih]

/-- `pace_str` from src/treinos.py: `float(dist or 0)` turns a null (or
zero) distance into 0; distance ≤ 0 gives the empty string, otherwise
`secs = int(tempo_td.total_seconds() / dist)` rendered as
`f"{secs//60:02d}:{secs%60:02d}"` with unbounded minutes. -/
def pace_str (tempo_td : Int) (dist : Option ℚ) : TimeText :=
  let d : ℚ := dist.getD 0
  if d ≤ 0 then .empty
  else
    let secs := pyTruncDiv tempo_td d
    .mmss (secs / 60) (secs % 60)

/-! ### The treinos.py table and normalization pipeline -/

/-- A row of the "treinos" sheet in src/treinos.py / src/treinos_menu.py,
after the column-coercion steps of `normalize_and_fill` are reflected in
the field types: `data` is the parsed date (`none` = NaT, the result of
`pd.to_datetime(..., errors="coerce")` on an unparseable cell), `dist`
is the numeric distance (`none` = NaN from `pd.to_numeric(...,
errors="coerce")`), `tempo` and `pace` are the time-column cells, and
the three label columns hold text (`none` = a null cell). -/
structure Row where
  mesAno : Option String
  data : Option Date
  semana : Option String
  diaSemana : Option String
  dist : Option ℚ
  tempo : TVal
  pace : TVal
deriving DecidableEq, Repr

/-- Lexicographic order on dates. -/
def dateLeB (a b : Date) : Bool :=
  if a.year ≠ b.year then a.year < b.year
  else if a.month ≠ b.month then a.month < b.month
  else a.day ≤ b.day

/-- Key order used by `sort_values("Data")`: ascending dates, with NaT
placed last (`na_position="last"`). -/
def dataKeyLeB (a b : Option Date) : Bool :=
  match a, b with
  | none, _ => b.isNone
  | some _, none => true
  | some x, some y => dateLeB x y

/-- Row comparison for `df.sort_values("Data")`. -/
def rowLeB (a b : Row) : Bool :=
  dataKeyLeB a.data b.data

/-- `df.sort_values("Data")`, modelled as an insertion sort by the date
key.  pandas sorts with numpy's introsort by default, which also
produces an ascending arrangement; its behaviour on rows with equal
dates is not specified, and the model commits to the stable
arrangement for concreteness (no claim settled below depends on the
relative order of equal-date rows). -/
def sortByData (df : List Row) : List Row :=
  List.insertionSort (fun a b => rowLeB a b = true) df

/-- The per-row part of `normalize_and_fill` (src/treinos.py lines
50-73): re-render the Tempo cell through `to_timedelta`, re-render the
Pace cell from the parsed existing Pace cell, and overwrite the three
label columns from `Data` when the date is present (rows with a null
date keep whatever was in their label columns). -/
def fillRow (r : Row) : Row :=
  let r' := { r with
    tempo := .text (fmtTempo (to_timedelta r.tempo)),
    pace := .text (fmtPaceRefill (to_timedelta r.pace)) }
  match r.data with
  | some d => { r' with
      mesAno := some (mes_ano_label d),
      diaSemana := some (dia_semana_nome d),
      semana := some (semana_iso_label d) }
  | none => r'

/-- `normalize_and_fill` from src/treinos.py (identical in
src/treinos_menu.py): coerce columns, re-render Tempo and Pace, fill
the labels of dated rows, then `df[COLS].sort_values("Data")
.reset_index(drop=True)`. -/
def normalize_and_fill (df : List Row) : List Row :=
  sortByData (df.map fillRow)

/-! ### Summary aggregation in save_excel_bytes (src/treinos.py lines 83-101) -/

/-- Zero-pad a natural number to four digits, as `str(Period)` renders
the year of a monthly period. -/
def pad4 (n : Nat) : String :=
  if n < 10 then "000" ++ toString n
  else if n < 100 then "00" ++ toString n
  else if n < 1000 then "0" ++ toString n
  else toString n

/-- `aux["Data"].dt.to_period("M").astype(str)` per row: "YYYY-MM" for a
valid date and the string "NaT" for a null date. -/
def mesKey (o : Option Date) : String :=
  match o with
  | some d => pad4 d.year ++ "-" ++ pad2 d.month
  | none => "NaT"

/-- The week key of a valid date when the Data column holds no NaT:
`aux["Data"].dt.year.astype(str) + "-W" + ...isocalendar().week...zfill(2)`
— the CALENDAR year paired with the ISO week number. -/
def semanaKeySingle (d : Date) : String :=
  toString d.year ++ "-W" ++ pad2 (isoWeek d)

/-- The whole week-key column of src/treinos.py line 93.  When the Data
column contains any NaT, `.dt.year` is a float column, so valid years
render with a trailing ".0"; a NaT row renders as year "nan" and ISO
week "<NA>". -/
def semanaKeyCol (col : List (Option Date)) : List String :=
  let hasNaT := col.any (fun o => o.isNone)
  col.map (fun o =>
    match o with
    | some d =>
        if hasNaT then toString d.year ++ ".0-W" ++ pad2 (isoWeek d)
        else semanaKeySingle d
    | none => "nan-W<NA>")

/-- Code-point lexicographic "≤" on character lists. -/
def charListLeB : List Char → List Char → Bool
  | [], _ => true
  | _ :: _, [] => false
  | a :: as, b :: bs =>
      if a.toNat < b.toNat then true
      else if b.toNat < a.toNat then false
      else charListLeB as bs

/-- Code-point lexicographic "≤" on strings, the order Python uses to
compare the group-key strings. -/
def strLeB (a b : String) : Bool :=
  charListLeB a.data b.data

/-- Sorted deduplicated group keys, as `groupby(...)` (which sorts group
keys ascending) produces them. -/
def sortedKeys (keys : List String) : List String :=
  List.insertionSort (fun a b => strLeB a b = true) keys.dedup

/-- The "resumo_mes" sheet built by `save_excel_bytes`: for each month
key in ascending order, the sum of the distance column (pandas `sum`
skips NaN, i.e. a missing distance contributes 0) and the summed Tempo
column re-parsed through `to_timedelta` and rendered as HH:MM:SS. -/
def resumoMes (df : List Row) : List (String × ℚ × TimeText) :=
  (sortedKeys (df.map (fun r => mesKey r.data))).map (fun k =>
    let rows := df.filter (fun r => mesKey r.data == k)
    (k, qSum (rows.map (fun r => r.dist.getD 0)),
      fmtTempo ((rows.map (fun r => to_timedelta r.tempo)).sum)))

/-- The "resumo_semana" sheet built by `save_excel_bytes`, grouped by
the week-key column of line 93. -/
def resumoSemana (df : List Row) : List (String × ℚ × TimeText) :=
  let keyed := (semanaKeyCol (df.map (fun r => r.data))).zip df
  (sortedKeys (keyed.map Prod.fst)).map (fun k =>
    let rows := (keyed.filter (fun p => p.fst == k)).map Prod.snd
    (k, qSum (rows.map (fun r => r.dist.getD 0)),
      fmtTempo ((rows.map (fun r => to_timedelta r.tempo)).sum)))

/-- A cell written to a summary sheet: a text cell or a numeric cell. -/
inductive Cell where
  | s (v : String)
  | q (v : ℚ)
  | t (v : TimeText)
deriving DecidableEq, Repr

/-- The rows of the "resumo_mes" sheet as lists of cells: key, summed
distance, formatted summed duration — these three cells and nothing
else. -/
def sheetResumoMes (df : List Row) : List (List Cell) :=
  (resumoMes df).map (fun g => [Cell.s g.1, Cell.q g.2.1, Cell.t g.2.2])

/-- `aux["Distância (km)"].sum()` over the table (NaN skipped). -/
def totalKm (df : List Row) : ℚ :=
  qSum (df.map (fun r => r.dist.getD 0))

/-- Total seconds of `aux["tempo_td"].sum()`, the summed re-parsed Tempo
column. -/
def totalSecs (df : List Row) : Int :=
  (df.map (fun r => to_timedelta r.tempo)).sum

/-- The "Ritmo médio" metric of the Resumos tab (src/treinos.py lines
225-226): `ritmo_sec = int(total_t.total_seconds()/total_km)` when
`total_km > 0` (else 0), rendered `f"{ritmo_sec//60:02d}:{ritmo_sec%60:02d}"`
(or "00:00" when `total_km ≤ 0`). -/
def ritmoMedio (df : List Row) : TimeText :=
  if 0 < totalKm df then
    let secs := pyTruncDiv (totalSecs df) (totalKm df)
    .mmss (secs / 60) (secs % 60)
  else .mmss 0 0

/-! ### The app_treinos.py table and normalize_df -/

/-- A row of the src/app_treinos.py table after tolerant column renaming,
with coerced `data` and `dist_km` as in `Row`.  `tempo` is the
"tempo_hms" cell; the remaining fields are the derived columns
`normalize_df` overwrites, plus the free-text `tipo`/`observacoes`. -/
structure Row2 where
  data : Option Date
  dist : Option ℚ
  tempo : TVal
  mes : String
  diaSemana : Option String
  semanaIso : Option Nat
  ano : Option Nat
  anoSemana : String
  ritmo : TimeText
  tipo : String
  obs : String
deriving DecidableEq, Repr

/-- The "tempo_hms" formatter of src/app_treinos.py lines 72-74: the
Timedelta components rendered as
`f"{hours + 24*days:02d}:{minutes:02d}:{seconds:02d}"`.  pandas
components use a floored day count and non-negative remainders, i.e.
`days = ts // 86400`, `hours = ts % 86400 // 3600`, and so on. -/
def componentsText (ts : Int) : TimeText :=
  .hhmmss (24 * (ts / 86400) + ts % 86400 / 3600) (ts % 3600 / 60) (ts % 60)

/-- The "ritmo_min_km" formatter of src/app_treinos.py lines 76-83:
empty unless `dist_km > 0`; otherwise the pace seconds `ts / dist`
(exact, then truncated to whole seconds by the integral components)
rendered as `f"{minutes + 60*(hours + 24*days):02d}:{seconds:02d}"`,
which for the floored pace seconds `n` is `n // 60` and `n % 60`. -/
def appRitmo (ts : Int) (dist : Option ℚ) : TimeText :=
  match dist with
  | some d =>
      if 0 < d then
        let n := floorDivQ ts d
        .mmss (n / 60) (n % 60)
      else .empty
  | none => .empty

/-- The per-row part of `normalize_df` (src/app_treinos.py lines 33-88):
overwrite every derived column from `data`, re-render "tempo_hms"
through `to_timedelta_safe`, and recompute "ritmo_min_km" from duration
and distance.  A NaT row gets the sentinel month text "NaT", a missing
weekday name, NA week/year numbers, and the sentinel year-week text
"<NA>-W<NA>". -/
def fillRow2 (r : Row2) : Row2 :=
  let ts := to_timedelta r.tempo
  { r with
    mes := mesKey r.data,
    semanaIso := r.data.map isoWeek,
    ano := r.data.map (fun d => d.year),
    anoSemana :=
      (match r.data with
       | some d => toString d.year ++ "-W" ++ pad2 (isoWeek d)
       | none => "<NA>-W<NA>"),
    diaSemana := r.data.map dia_semana_nome,
    tempo := .text (componentsText ts),
    ritmo := appRitmo ts r.dist }

/-- Row comparison for `sort_values("data")` in src/app_treinos.py. -/
def row2LeB (a b : Row2) : Bool :=
  dataKeyLeB a.data b.data

/-- `normalize_df` from src/app_treinos.py: per-row recomputation of all
derived columns followed by `df[cols].sort_values("data")` (same
modelling note on ties as `sortByData`). -/
def normalize_df (df : List Row2) : List Row2 :=
  List.insertionSort (fun a b => row2LeB a b = true) (df.map fillRow2)

/-! ### Delete handlers -/

/-- The "Apagar" handler of src/treinos.py line 198 and
src/treinos_menu.py line 215: `df.drop(index=idx).reset_index(drop=True)`
on the labelled table — remove the row whose index label equals `idx`
and relabel positionally.  (pandas `drop` raises on an absent label;
the handlers only pass labels present in the table.) -/
def treinosDelete (df : List (Nat × Row)) (idx : Nat) : List (Nat × Row) :=
  ((df.filter (fun p => !(p.fst == idx))).map Prod.snd).enum

/-- The "Apagar este registo" handler of src/app_treinos.py lines
245-247: drop the labelled row, reset the index, then re-run
`normalize_df` on the result. -/
def appDelete (df : List (Nat × Row2)) (idx : Nat) : List Row2 :=
  normalize_df ((df.filter (fun p => !(p.fst == idx))).map Prod.snd)

/-! ### The specification's summary row, for comparison (§4.5) -/

/-- The month-group summary row as the spec's §4.5 words describe it —
count of records, sum of distance, sum of duration, and an average pace
equal to the group's total duration in seconds integer-divided (floor)
by the group's total distance, formatted MM:SS.  Declared only to be
compared with the summaries the code emits. -/
def specResumoMes (df : List Row) : List (String × Nat × ℚ × TimeText × TimeText) :=
  (sortedKeys (df.map (fun r => mesKey r.data))).map (fun k =>
    let rows := df.filter (fun r => mesKey r.data == k)
    let dist := qSum (rows.map (fun r => r.dist.getD 0))
    let secs := (rows.map (fun r => to_timedelta r.tempo)).sum
    (k, rows.length, dist, fmtTempo secs,
      if 0 < dist then .mmss (floorDivQ secs dist / 60) (floorDivQ secs dist % 60)
      else .empty))

/-- The spec's §4.2 pace rule applied to a group total: total duration
seconds integer-divided by total distance, formatted MM:SS with
unbounded minutes (empty when the distance is not positive).  Declared
from the spec's words, to be compared with `ritmoMedio`. -/
def specAvgPace (secs : Int) (km : ℚ) : TimeText :=
  if 0 < km then .mmss (floorDivQ secs km / 60) (floorDivQ secs km % 60)
  else .empty

/-- A `TVal` whose rendered fields carry no minus sign. -/
def TVal.unsigned : TVal → Prop
  | .text (.mmss m s) => 0 ≤ m ∧ 0 ≤ s
  | .text (.hhmmss h m s) => 0 ≤ h ∧ 0 ≤ m ∧ 0 ≤ s
  | _ => True

/-! ### Helper lemmas -/

theorem fillRow_data (r : Row) : (fillRow r).data = r.data := by
  cases h : r.data <;> simp [fillRow, h]

theorem fillRow_labels_of_null_date (r : Row) (h : r.data = none) :
    (fillRow r).mesAno = r.mesAno ∧ (fillRow r).semana = r.semana ∧
      (fillRow r).diaSemana = r.diaSemana := by
  simp [fillRow, h]

theorem parse_fmtTempo (d : Int) (h : 0 ≤ d) :
    to_timedelta (.text (fmtTempo d)) = d := by
  have h1 : 0 ≤ d / 3600 := Int.ediv_nonneg h (by norm_num)
  simp only [fmtTempo, to_timedelta, if_neg (not_lt.mpr h1)]
  omega

theorem enumFrom_filter_ne_map_snd {α : Type _} (l : List α) (n i : Nat) :
    ((List.enumFrom n l).filter (fun p => !(p.fst == i))).map Prod.snd
      = if i < n then l else l.eraseIdx (i - n) := by
  induction l generalizing n with
  | nil => simp
  | cons a l ih =>
    simp only [List.enumFrom, List.filter_cons]
    by_cases hn : n = i
    · subst hn
      simp only [beq_self_eq_true, Bool.not_true, Bool.false_eq_true, if_neg, ite_false]
      rw [ih (n + 1), if_pos (Nat.lt_succ_self n)]
      rw [if_neg (lt_irrefl n), Nat.sub_self]
      rfl
    · have hb : (!(n == i)) = true := by simp [hn]
      rw [if_pos hb, List.map_cons, ih (n + 1)]
      by_cases hlt : i < n
      · rw [if_pos (Nat.lt_succ_of_lt hlt), if_pos hlt]
      · have hgt : n < i := Nat.lt_of_le_of_ne (Nat.le_of_not_lt hlt) hn
        rw [if_neg (by omega), if_neg hlt]
        have : i - n = (i - (n + 1)) + 1 := by omega
        rw [this, List.eraseIdx_cons_succ]

/-- C6: for every non-negative duration (durations of 24 hours or more
included), formatting through the canonical HH:MM:SS renderer, parsing
the rendered text back with `to_timedelta`, and formatting again yields
the same text. -/
theorem duration_format_parse_format (d : Int) (h : 0 ≤ d) :
    fmtTempo (to_timedelta (.text (fmtTempo d))) = fmtTempo d := by
  rw [parse_fmtTempo d h]

theorem duration_format_parse_format_witness :
    (0 : Int) ≤ 90000 ∧
      fmtTempo (to_timedelta (.text (fmtTempo 90000))) = fmtTempo 90000 :=
  ⟨by decide, duration_format_parse_format 90000 (by decide)⟩

/-- C10: both normalization pipelines return exactly as many rows as
they were given. -/
theorem normalize_preserves_row_count (df : List Row) (df2 : List Row2) :
    (normalize_and_fill df).length = df.length ∧
      (normalize_df df2).length = df2.length := by
  constructor
  · rw [normalize_and_fill, sortByData, (List.perm_insertionSort _ _).length_eq,
      List.length_map]
  · rw [normalize_df, (List.perm_insertionSort _ _).length_eq, List.length_map]

/-- C1 (code bug): a table output by `normalize_and_fill` is not a fixed
point of `normalize_and_fill`: the pipeline re-parses its own "MM:SS"
pace text as hours-and-minutes, so the pace of this canonical table
changes on the next pass. -/
theorem normalize_and_fill_not_idempotent :
    normalize_and_fill (normalize_and_fill
      [{ mesAno := some "Janeiro 2024", data := some ⟨2024, 1, 15⟩,
         semana := some "2024-W03", diaSemana := some "Segunda",
         dist := some 5, tempo := .text (.hhmmss 0 27 30),
         pace := .text (.mmss 5 30) }]) ≠
      normalize_and_fill
        [{ mesAno := some "Janeiro 2024", data := some ⟨2024, 1, 15⟩,
           semana := some "2024-W03", diaSemana := some "Segunda",
           dist := some 5, tempo := .text (.hhmmss 0 27 30),
           pace := .text (.mmss 5 30) }] := by
  decide

/-- C2 (counterexample): `normalize_and_fill` gives a record with a null
distance a non-empty, formatted pace text, because the pipeline
re-derives pace from the existing pace cell alone, ignoring distance. -/
theorem normalize_pace_formatted_without_distance :
    (normalize_and_fill
      [{ mesAno := none, data := none, semana := none, diaSemana := none,
         dist := none, tempo := .null, pace := .text (.mmss 5 30) }]).map
        (fun r => r.pace) = [.text (.mmss 30 0)] ∧
      TimeText.mmss 30 0 ≠ TimeText.empty := by
  decide

/-- C2 (amended): `pace_str` and the `normalize_df` pace rule produce
the empty text exactly when the distance is not positive. -/
theorem pace_empty_iff_positive_distance (td : Int) (dist : Option ℚ) :
    (dist.getD 0 ≤ 0 → pace_str td dist = .empty ∧ appRitmo td dist = .empty) ∧
      (0 < dist.getD 0 → pace_str td dist ≠ .empty ∧ appRitmo td dist ≠ .empty) := by
  cases dist with
  | none =>
    refine ⟨fun _ => ⟨?_, rfl⟩, fun h => absurd h (by norm_num)⟩
    simp [pace_str]
  | some q =>
    simp only [Option.getD_some]
    constructor
    · intro h
      constructor
      · simp [pace_str, h]
      · simp [appRitmo, not_lt.mpr h]
    · intro h
      constructor
      · simp [pace_str, not_le.mpr h]
      · simp [appRitmo, h]

theorem pace_empty_iff_positive_distance_witness :
    (pace_str 1650 (some 5) ≠ .empty ∧ appRitmo 1650 (some 5) ≠ .empty) ∧
      (pace_str 1650 none = .empty ∧ appRitmo 1650 none = .empty) :=
  ⟨(pace_empty_iff_positive_distance 1650 (some 5)).2 (by decide),
   (pace_empty_iff_positive_distance 1650 none).1 (by decide)⟩

/-- C9 (counterexample): on the signed duration text "-1:00" the parser
returns a negative duration. -/
theorem to_timedelta_negative_on_signed_text :
    to_timedelta (.text (.mmss (-1) 0)) < 0 := by decide

/-- C9 (amended): the parser is total (all failures are caught), returns
zero on null or empty or unparseable input, and returns a non-negative
duration on every unsigned input; only a negative-signed duration text
can produce a negative duration. -/
theorem to_timedelta_zero_fallback_and_unsigned_nonneg (v : TVal) :
    ((v = .null ∨ v = .text .empty ∨ v = .junk) → to_timedelta v = 0) ∧
      (v.unsigned → 0 ≤ to_timedelta v) := by
  constructor
  · rintro (rfl | rfl | rfl) <;> rfl
  · intro h
    match v, h with
    | .null, _ => exact le_refl 0
    | .junk, _ => exact le_refl 0
    | .timeOfDay a b c, _ => simp only [to_timedelta]; positivity
    | .text .empty, _ => exact le_refl 0
    | .text (.mmss m s), ⟨hm, hs⟩ =>
        simp only [to_timedelta, if_neg (not_lt.mpr hm)]; omega
    | .text (.hhmmss a b c), ⟨ha, hb, hc⟩ =>
        simp only [to_timedelta, if_neg (not_lt.mpr ha)]; omega

theorem to_timedelta_zero_fallback_and_unsigned_nonneg_witness :
    to_timedelta .null = 0 ∧ 0 ≤ to_timedelta (.timeOfDay 1 2 3) :=
  ⟨(to_timedelta_zero_fallback_and_unsigned_nonneg .null).1 (Or.inl rfl),
   (to_timedelta_zero_fallback_and_unsigned_nonneg (.timeOfDay 1 2 3)).2 trivial⟩

/-- C3 (counterexample): for a one-record table (2 km in 00:10:00,
dated 2024-01-15) the emitted month-summary row holds exactly the key,
the total distance 2 and the total duration text — no record-count cell
(1) and no average-pace cell ("05:00", i.e. 600 s // 2 km = 300 s/km),
although the spec-described summary (`specResumoMes`) carries both. -/
theorem resumo_reports_no_group_pace_or_count :
    sheetResumoMes (normalize_and_fill
      [{ mesAno := none, data := some ⟨2024, 1, 15⟩, semana := none,
         diaSemana := none, dist := some 2, tempo := .text (.hhmmss 0 10 0),
         pace := .null }])
      = [[Cell.s "2024-01", Cell.q 2, Cell.t (.hhmmss 0 10 0)]] ∧
    specResumoMes (normalize_and_fill
      [{ mesAno := none, data := some ⟨2024, 1, 15⟩, semana := none,
         diaSemana := none, dist := some 2, tempo := .text (.hhmmss 0 10 0),
         pace := .null }])
      = [("2024-01", 1, 2, .hhmmss 0 10 0, .mmss 5 0)] ∧
    Cell.t (.mmss 5 0) ∉ [Cell.s "2024-01", Cell.q 2, Cell.t (.hhmmss 0 10 0)] ∧
    Cell.q 1 ∉ [Cell.s "2024-01", Cell.q 2, Cell.t (.hhmmss 0 10 0)] := by
  decide

/-- C3 (amended): the only average pace the code computes — the global
"Ritmo médio" over the whole table — agrees with the spec's
distance-weighted rule: total duration seconds integer-divided by total
distance, rendered MM:SS. -/
theorem ritmo_medio_is_distance_weighted (df : List Row)
    (hkm : 0 < totalKm df) (hsec : 0 ≤ totalSecs df) :
    ritmoMedio df = specAvgPace (totalSecs df) (totalKm df) := by
  rw [ritmoMedio, if_pos hkm, specAvgPace, if_pos hkm]
  have hnum : (0 : Int) ≤ (totalKm df).num := le_of_lt (Rat.num_pos.mpr hkm)
  have htd : pyTruncDiv (totalSecs df) (totalKm df)
      = floorDivQ (totalSecs df) (totalKm df) := by
    rw [pyTruncDiv, floorDivQ]
    exact Int.tdiv_eq_ediv (mul_nonneg hsec (Int.natCast_nonneg _)) hnum
  rw [htd]

theorem ritmo_medio_is_distance_weighted_witness :
    0 < totalKm
        [{ mesAno := none, data := some ⟨2024, 1, 15⟩, semana := none,
           diaSemana := none, dist := some 10, tempo := .text (.hhmmss 1 0 0),
           pace := .null }] ∧
      ritmoMedio
        [{ mesAno := none, data := some ⟨2024, 1, 15⟩, semana := none,
           diaSemana := none, dist := some 10, tempo := .text (.hhmmss 1 0 0),
           pace := .null }]
      = specAvgPace (totalSecs
        [{ mesAno := none, data := some ⟨2024, 1, 15⟩, semana := none,
           diaSemana := none, dist := some 10, tempo := .text (.hhmmss 1 0 0),
           pace := .null }])
        (totalKm
        [{ mesAno := none, data := some ⟨2024, 1, 15⟩, semana := none,
           diaSemana := none, dist := some 10, tempo := .text (.hhmmss 1 0 0),
           pace := .null }]) :=
  ⟨by decide, ritmo_medio_is_distance_weighted _ (by decide) (by decide)⟩

/-- C4 (counterexample): 2024-12-30 belongs to ISO year 2025 week 1 and
its per-row label is "2025-W01", but the week-summary key built on
src/treinos.py line 93 concatenates the CALENDAR year with the ISO week
number, so the record is grouped under "2024-W01". -/
theorem week_summary_key_uses_calendar_year :
    resumoSemana (normalize_and_fill
      [{ mesAno := none, data := some ⟨2024, 12, 30⟩, semana := none,
         diaSemana := none, dist := some 10, tempo := .text (.hhmmss 1 0 0),
         pace := .null }])
      = [("2024-W01", 10, .hhmmss 1 0 0)] ∧
    (normalize_and_fill
      [{ mesAno := none, data := some ⟨2024, 12, 30⟩, semana := none,
         diaSemana := none, dist := some 10, tempo := .text (.hhmmss 1 0 0),
         pace := .null }]).map (fun r => r.semana) = [some "2025-W01"] ∧
    ("2024-W01" : String) ≠ "2025-W01" := by
  decide

/-- C4 (amended): the summary week key coincides with the ISO week label
exactly on dates whose ISO week-numbering year equals their calendar
year. -/
theorem semana_key_matches_label_when_iso_year_is_calendar (d : Date)
    (h : isoYear d = d.year) : semanaKeySingle d = semana_iso_label d := by
  rw [semanaKeySingle, semana_iso_label, h]

theorem semana_key_matches_label_when_iso_year_is_calendar_witness :
    isoYear ⟨2024, 1, 10⟩ = 2024 ∧
      semanaKeySingle ⟨2024, 1, 10⟩ = semana_iso_label ⟨2024, 1, 10⟩ :=
  ⟨by decide, semana_key_matches_label_when_iso_year_is_calendar ⟨2024, 1, 10⟩ (by decide)⟩

/-- C5 (counterexample): a null-date row keeps its stale "Mês/Ano" text
(instead of an empty derived field) and contributes its 3 km to a "NaT"
month group in the summary (instead of being excluded). -/
theorem null_date_row_keeps_label_and_forms_nat_group :
    (normalize_and_fill
      [{ mesAno := some "stale", data := none, semana := none,
         diaSemana := none, dist := some 3, tempo := .null, pace := .null },
       { mesAno := none, data := some ⟨2024, 1, 15⟩, semana := none,
         diaSemana := none, dist := some 2, tempo := .text (.hhmmss 0 10 0),
         pace := .null }]).map (fun r => r.mesAno)
      = [some "Janeiro 2024", some "stale"] ∧
    resumoMes (normalize_and_fill
      [{ mesAno := some "stale", data := none, semana := none,
         diaSemana := none, dist := some 3, tempo := .null, pace := .null },
       { mesAno := none, data := some ⟨2024, 1, 15⟩, semana := none,
         diaSemana := none, dist := some 2, tempo := .text (.hhmmss 0 10 0),
         pace := .null }])
      = [("2024-01", 2, .hhmmss 0 10 0), ("NaT", 3, .hhmmss 0 0 0)] := by
  decide

/-- C5 (amended): normalization retains every null-date row (their count
is preserved), and each null-date row of the output carries its input
label fields unchanged rather than emptied. -/
theorem null_date_rows_retained_with_labels_untouched (df : List Row) :
    (normalize_and_fill df).countP (fun r => r.data.isNone)
        = df.countP (fun r => r.data.isNone) ∧
      ∀ r' ∈ normalize_and_fill df, r'.data = none →
        ∃ r ∈ df, r.data = none ∧ r'.mesAno = r.mesAno ∧ r'.semana = r.semana ∧
          r'.diaSemana = r.diaSemana := by
  constructor
  · rw [normalize_and_fill, sortByData, (List.perm_insertionSort _ _).countP_eq,
      List.countP_map]
    congr 1
    funext r
    simp [Function.comp, fillRow_data]
  · intro r' hmem hnone
    rw [normalize_and_fill, sortByData] at hmem
    have hmem2 := (List.perm_insertionSort _ _).mem_iff.mp hmem
    obtain ⟨r, hr, rfl⟩ := List.mem_map.mp hmem2
    have hdr : r.data = none := by rw [← fillRow_data r]; exact hnone
    obtain ⟨h1, h2, h3⟩ := fillRow_labels_of_null_date r hdr
    exact ⟨r, hr, hdr, h1, h2, h3⟩

theorem null_date_rows_retained_with_labels_untouched_witness :
    (normalize_and_fill
      [{ mesAno := some "x", data := none, semana := none, diaSemana := none,
         dist := none, tempo := .null, pace := .null }]).countP
        (fun r => r.data.isNone)
      = ([{ mesAno := some "x", data := none, semana := none, diaSemana := none,
            dist := none, tempo := .null, pace := .null }] : List Row).countP
        (fun r => r.data.isNone) ∧
    ∃ r ∈ ([{ mesAno := some "x", data := none, semana := none, diaSemana := none,
              dist := none, tempo := .null, pace := .null }] : List Row),
      r.data = none ∧
        ({ mesAno := some "x", data := none, semana := none, diaSemana := none,
           dist := none, tempo := .text (.hhmmss 0 0 0),
           pace := .text .empty } : Row).mesAno = r.mesAno ∧
        ({ mesAno := some "x", data := none, semana := none, diaSemana := none,
           dist := none, tempo := .text (.hhmmss 0 0 0),
           pace := .text .empty } : Row).semana = r.semana ∧
        ({ mesAno := some "x", data := none, semana := none, diaSemana := none,
           dist := none, tempo := .text (.hhmmss 0 0 0),
           pace := .text .empty } : Row).diaSemana = r.diaSemana :=
  ⟨(null_date_rows_retained_with_labels_untouched _).1,
   (null_date_rows_retained_with_labels_untouched _).2 _ (by decide) rfl⟩

/-- C8 (counterexample): deleting row 1 of a canonical two-row session
table in src/treinos.py leaves the remaining row exactly as it was; the
claim's promised re-normalization would have changed its pace text (the
pipeline maps the canonical pace "30:00" to "00:00"), so the delete
result differs from the re-normalized remainder. -/
theorem treinos_delete_skips_renormalization :
    (treinosDelete
      [(0, { mesAno := some "Janeiro 2024", data := some ⟨2024, 1, 15⟩,
             semana := some "2024-W03", diaSemana := some "Segunda",
             dist := some 5, tempo := .text (.hhmmss 0 27 30),
             pace := .text (.mmss 30 0) }),
       (1, { mesAno := some "Janeiro 2024", data := some ⟨2024, 1, 16⟩,
             semana := some "2024-W03", diaSemana := some "Terça",
             dist := some 5, tempo := .text (.hhmmss 0 30 0),
             pace := .text (.mmss 6 0) })] 1).map Prod.snd ≠
    normalize_and_fill
      [{ mesAno := some "Janeiro 2024", data := some ⟨2024, 1, 15⟩,
         semana := some "2024-W03", diaSemana := some "Segunda",
         dist := some 5, tempo := .text (.hhmmss 0 27 30),
         pace := .text (.mmss 30 0) }] := by
  decide

/-- C8 (amended): on a canonically indexed table, delete removes exactly
the record at the selected index, keeps the remaining rows in order and
relabels them 0..n-2; only the src/app_treinos.py handler re-runs the
normalization pipeline afterwards. -/
theorem delete_erases_and_reindexes (rows : List Row) (rows2 : List Row2)
    (i j : Nat) (hi : i < rows.length) (hj : j < rows2.length) :
    (treinosDelete rows.enum i).map Prod.snd = rows.eraseIdx i ∧
      (treinosDelete rows.enum i).map Prod.fst = List.range (rows.length - 1) ∧
      appDelete rows2.enum j = normalize_df (rows2.eraseIdx j) ∧
      (appDelete rows2.enum j).length = rows2.length - 1 := by
  have key : ∀ {α : Type} (l : List α) (k : Nat),
      ((l.enum.filter (fun p => !(p.fst == k))).map Prod.snd) = l.eraseIdx k := by
    intro α l k
    have h := enumFrom_filter_ne_map_snd l 0 k
    rw [if_neg (Nat.not_lt_zero k), Nat.sub_zero] at h
    exact h
  refine ⟨?_, ?_, ?_, ?_⟩
  · rw [treinosDelete, List.enum_map_snd, key]
  · rw [treinosDelete, List.enum_map_fst, key, List.length_eraseIdx_of_lt hi]
  · rw [appDelete, key]
  · rw [appDelete, key, normalize_df, (List.perm_insertionSort _ _).length_eq,
      List.length_map, List.length_eraseIdx_of_lt hj]

theorem delete_erases_and_reindexes_witness :
    (treinosDelete
        ([{ mesAno := none, data := none, semana := none, diaSemana := none,
            dist := none, tempo := .null, pace := .null },
          { mesAno := some "b", data := none, semana := none, diaSemana := none,
            dist := none, tempo := .null, pace := .null }] : List Row).enum 0).map
        Prod.snd
      = ([{ mesAno := none, data := none, semana := none, diaSemana := none,
            dist := none, tempo := .null, pace := .null },
          { mesAno := some "b", data := none, semana := none, diaSemana := none,
            dist := none, tempo := .null, pace := .null }] : List Row).eraseIdx 0 ∧
    appDelete
        ([{ data := none, dist := none, tempo := .null, mes := "", diaSemana := none,
            semanaIso := none, ano := none, anoSemana := "", ritmo := .empty,
            tipo := "", obs := "" }] : List Row2).enum 0
      = normalize_df
        (([{ data := none, dist := none, tempo := .null, mes := "", diaSemana := none,
             semanaIso := none, ano := none, anoSemana := "", ritmo := .empty,
             tipo := "", obs := "" }] : List Row2).eraseIdx 0) :=
  ⟨(delete_erases_and_reindexes
      [{ mesAno := none, data := none, semana := none, diaSemana := none,
         dist := none, tempo := .null, pace := .null },
       { mesAno := some "b", data := none, semana := none, diaSemana := none,
         dist := none, tempo := .null, pace := .null }]
      [{ data := none, dist := none, tempo := .null, mes := "", diaSemana := none,
         semanaIso := none, ano := none, anoSemana := "", ritmo := .empty,
         tipo := "", obs := "" }] 0 0 (by decide) (by decide)).1,
   (delete_erases_and_reindexes
      [{ mesAno := none, data := none, semana := none, diaSemana := none,
         dist := none, tempo := .null, pace := .null },
       { mesAno := some "b", data := none, semana := none, diaSemana := none,
         dist := none, tempo := .null, pace := .null }]
      [{ data := none, dist := none, tempo := .null, mes := "", diaSemana := none,
         semanaIso := none, ano := none, anoSemana := "", ritmo := .empty,
         tipo := "", obs := "" }] 0 0 (by decide) (by decide)).2.2.1⟩
